import Mathlib

/-!
Verification of the Route53 hosted-zone reconciliation module
(`cloud/amazon/route53_zone.py`).  The module's `main` procedure is
embedded shallowly: AWS API responses are free inputs (an oracle
record `Route53`), Python dict keys that may be absent are `Option`
fields, Python truthiness is made explicit, and every terminal path
(`module.exit_json`, `module.fail_json`, an uncaught exception) is a
constructor of `Outcome`.  The embedding also records the list of
provider API calls issued, in order, so that "no mutating call was
issued" style properties can be stated.
-/

namespace Route53Zone

/-- A Python value shape, rich enough to distinguish a list of strings
from a one-element tuple containing such a list (the shape produced by
a trailing comma in an assignment such as
`result['name_servers'] = ... ,`). -/
inductive PyVal where
  | pyStrList (xs : List String)
  | pyTuple1 (v : PyVal)
deriving DecidableEq

/-- Whether a Python value is a list whose elements are all strings. -/
def PyVal.isStringList : PyVal → Bool
  | .pyStrList _ => true
  | .pyTuple1 _ => false

/-- Result of one AWS API call: either a response, or a
`botocore.exceptions.ClientError` carrying an error code and message. -/
inductive ApiResult (α : Type) where
  | ok (resp : α)
  | err (code msg : String)
deriving DecidableEq

/-- The call succeeded. -/
def ApiResult.isOk {α : Type} : ApiResult α → Prop
  | .ok _ => True
  | .err _ _ => False

instance {α : Type} (r : ApiResult α) : Decidable r.isOk := by
  cases r with
  | ok _ => exact .isTrue trivial
  | err _ _ => exact .isFalse id

/-- Python truthiness of an optional string (`None` and `''` are falsy). -/
def pyTruthyOpt : Option String → Bool
  | none => false
  | some s => s ≠ ""

/-- Python `z[-1:]`: the one-character suffix (empty for the empty string). -/
def pyLastSlice (z : String) : String :=
  String.mk (z.data.drop (z.data.length - 1))

/-- Python `str.lower()`, character by character. -/
def pyToLower (z : String) : String :=
  String.mk (z.data.map Char.toLower)

/-- One step of Python `str.replace` on character lists, with explicit
fuel so that it evaluates inside the kernel; each step consumes at
least one character, so fuel `s.length` is enough. -/
def replaceFuel (pat rep : List Char) : Nat → List Char → List Char
  | 0, l => l
  | _ + 1, [] => []
  | n + 1, c :: rest =>
    if pat ≠ [] ∧ pat.isPrefixOf (c :: rest) then
      rep ++ replaceFuel pat rep n ((c :: rest).drop pat.length)
    else
      c :: replaceFuel pat rep n rest

/-- Python `s.replace(pat, rep)`: replace all non-overlapping
occurrences, left to right. -/
def pyReplace (s pat rep : String) : String :=
  String.mk (replaceFuel pat.data rep.data s.data.length s.data)

/-- Lines 161-162: append a trailing `"."` to the zone name if the last
character is not already a dot. -/
def normalizeZone (z : String) : String :=
  if pyLastSlice z ≠ "." then z ++ "." else z

/-- Line 165: the caller reference string built from the current UTC
timestamp and a random integer, fresh per invocation. -/
def callerReference (iso : String) (rand : Nat) : String :=
  "ansible-route53_zone-" ++ iso ++ "-" ++ toString rand

/-- The module parameters (after argument-spec defaults: `state`
defaults to `present`, `comment` to the empty string, the rest to
`None`). -/
structure Params where
  zone : String
  state : String
  vpc_id : Option String
  vpc_region : Option String
  comment : String
  delegation_set : Option String
deriving DecidableEq

/-- An entry of a `VPCs` list in a provider response. -/
structure VPCInfo where
  VPCId : String
  VPCRegion : String
deriving DecidableEq

/-- The `Config` sub-dict of a hosted zone (`Comment` key optional). -/
structure HostedZoneConfig where
  PrivateZone : Bool
  Comment : Option String
deriving DecidableEq

/-- The `HostedZone` sub-dict of a provider response. -/
structure HostedZoneInfo where
  Id : String
  Name : String
  Config : HostedZoneConfig
  ResourceRecordSetCount : Int
deriving DecidableEq

/-- The `DelegationSet` sub-dict (the `Id` key may be absent). -/
structure DelegationSetInfo where
  Id : Option String
  NameServers : List String
deriving DecidableEq

/-- A summary entry of the `HostedZones` list returned by
`list_hosted_zones`. -/
structure HZSummary where
  Id : String
  Name : String
deriving DecidableEq

/-- One page of the `list_hosted_zones` response.  The module reads
only `HostedZones`; the truncation marker fields are part of the
response but are never consulted by the code. -/
structure ListResp where
  HostedZones : List HZSummary
  IsTruncated : Bool
  NextMarker : Option String
deriving DecidableEq

/-- The `get_hosted_zone` response (`DelegationSet` and `VPCs` keys
optional). -/
structure ZoneDetails where
  HostedZone : HostedZoneInfo
  DelegationSet : Option DelegationSetInfo
  VPCs : Option (List VPCInfo)
deriving DecidableEq

/-- The `create_hosted_zone` response. -/
structure CreateResp where
  HostedZone : HostedZoneInfo
  Location : String
  DelegationSet : Option DelegationSetInfo
  VPCs : Option (List VPCInfo)
deriving DecidableEq

/-- The request record assembled in lines 189-208 and passed to
`create_hosted_zone` (optional keys are only present when set). -/
structure CreateRecord where
  CallerReference : String
  Comment : Option String
  VPC : Option VPCInfo
  DelegationSetId : Option String
deriving DecidableEq

/-- A provider API call, as recorded in the call trace. -/
inductive ApiCall where
  | listHostedZones
  | getHostedZone (id : String)
  | getReusableDelegationSet (id : String)
  | createHostedZone (name : String) (record : CreateRecord)
  | deleteHostedZone (id : String)
deriving DecidableEq

/-- Whether a call mutates provider state. -/
def ApiCall.isMutating : ApiCall → Bool
  | .createHostedZone _ _ => true
  | .deleteHostedZone _ => true
  | _ => false

/-- Whether a call concerns delegation sets. -/
def ApiCall.isDelegationSetCall : ApiCall → Bool
  | .getReusableDelegationSet _ => true
  | _ => false

/-- The provider, as an oracle fixing the response of every call the
module could issue during one invocation.  `firstPage` is the response
to the single `list_hosted_zones()` call the code makes (no marker is
ever passed); `laterPages` are the further pages the provider would
serve if asked, which the code never requests. -/
structure Route53 where
  firstPage : ApiResult ListResp
  laterPages : List ListResp
  get_hosted_zone : String → ApiResult ZoneDetails
  get_reusable_delegation_set : String → ApiResult DelegationSetInfo
  create_hosted_zone : String → CreateRecord → ApiResult CreateResp
  delete_hosted_zone : String → ApiResult Unit

/-- Line 176: `route53.list_hosted_zones()`, called once with no
pagination marker. -/
def Route53.list_hosted_zones (r : Route53) : ApiResult ListResp :=
  r.firstPage

/-- An entry of the `vpcs` list of the result dict, built by
`dict(id=v['VPCId'], region=v['VPCRegion'])`. -/
structure VPCOut where
  id : String
  region : String
deriving DecidableEq

/-- The `result` dict returned by `exit_json` (optional keys are only
present when the corresponding branch assigned them). -/
structure ResultDict where
  zone_id : String
  name : String
  private_zone : Bool
  resource_record_set_count : Int
  comment : Option String := none
  name_servers : Option PyVal := none
  delegation_set : Option String := none
  vpcs : Option (List VPCOut) := none
  location : Option String := none
deriving DecidableEq

/-- Lines 182-185: the break condition of the matching loop.  With a
truthy `vpc_id` the zone matches when its details carry a `VPCs` list
containing that `vpc_id`; with a falsy `vpc_id` the zone matches when
its details carry no `VPCs` key at all. -/
def privacyMatch (vpc_id : Option String) (zd : ZoneDetails) : Bool :=
  if pyTruthyOpt vpc_id then
    zd.VPCs.isSome && (zd.VPCs.getD []).any fun v => v.VPCId == vpc_id.getD ""
  else
    zd.VPCs.isNone

/-- Result of the matching loop of lines 178-187: either an uncaught
`ClientError` from a `get_hosted_zone` call inside the loop, or the
final value of `zone_id` (the loop's `else` clause sets it to `None`
when no break occurred), together with the calls the loop issued. -/
inductive FindRes where
  | crash (code msg : String) (calls : List ApiCall)
  | done (zone_id : Option String) (calls : List ApiCall)
deriving DecidableEq

/-- Lines 178-187: scan the listed zones; on each name match, strip the
`/hostedzone/` path from the Id, fetch the zone details and break when
the privacy scope matches; the `for/else` clause yields `None` when no
break occurred. -/
def findZone (get : String → ApiResult ZoneDetails) (zone_in : String)
    (vpc_id : Option String) : List HZSummary → FindRes
  | [] => .done none []
  | z :: rest =>
    if z.Name = zone_in then
      let zid := pyReplace z.Id "/hostedzone/" ""
      match get zid with
      | .err c m => .crash c m [.getHostedZone zid]
      | .ok zd =>
        if privacyMatch vpc_id zd then .done (some zid) [.getHostedZone zid]
        else
          match findZone get zone_in vpc_id rest with
          | .crash c m calls => .crash c m (.getHostedZone zid :: calls)
          | .done r calls => .done r (.getHostedZone zid :: calls)
    else findZone get zone_in vpc_id rest

/-- Lines 197-208: the delegation-set block.  With a truthy
`delegation_set` it fails for a private zone, else prefixes the id with
`/delegationset/` and resolves it, mapping a `NoSuchDelegationSet`
error code to a fixed message.  Returns `inl` on `fail_json` and `inr`
with the (possibly reassigned) `delegation_set` value on success. -/
def delegStage (p : Params) (private_zone : Bool) (r53 : Route53) :
    (String × List ApiCall) ⊕ (Option String × List ApiCall) :=
  match p.delegation_set with
  | none => .inr (none, [])
  | some ds =>
    if ds = "" then .inr (some ds, [])
    else if private_zone then
      .inl ("Cannot specify delegation_set for private zone", [])
    else
      match r53.get_reusable_delegation_set ("/delegationset/" ++ ds) with
      | .err code msg =>
        if code = "NoSuchDelegationSet" then
          .inl ("The specified delegation set was not found",
            [.getReusableDelegationSet ("/delegationset/" ++ ds)])
        else
          .inl (msg, [.getReusableDelegationSet ("/delegationset/" ++ ds)])
      | .ok _ =>
        .inr (some ("/delegationset/" ++ ds),
          [.getReusableDelegationSet ("/delegationset/" ++ ds)])

/-- A terminal outcome of `main`: a successful `exit_json`, a
`fail_json`, an uncaught `ClientError` (the call site has no
`try/except`), or an uncaught `KeyError` from indexing a missing dict
key. `noExit` marks falling off the end of `main` (unreachable for
`state` in \x7bpresent, absent\x7d). -/
inductive Outcome where
  | exitJson (changed : Bool) (result : Option ResultDict)
  | failJson (msg : String)
  | crashClientError (code msg : String)
  | crashKeyError (key : String)
  | noExit
deriving DecidableEq

/-- Lines 210-234: the `state == 'present' and zone_id` branch.  Fetch
the full details (the call has no `try/except`, so a `ClientError`
propagates), build the result dict, compare the delegation set when
one was requested (indexing `details['DelegationSet']` raises
`KeyError` when the key is absent), and `exit_json(changed=False)`. -/
def presentFound (get : String → ApiResult ZoneDetails) (zid : String)
    (ds_val : Option String) (calls : List ApiCall) : Outcome × List ApiCall :=
  match get zid with
  | .err c m => (.crashClientError c m, calls ++ [.getHostedZone zid])
  | .ok details =>
    let calls := calls ++ [.getHostedZone zid]
    let base : ResultDict :=
      { zone_id := pyReplace details.HostedZone.Id "/hostedzone/" ""
        name := details.HostedZone.Name
        private_zone := details.HostedZone.Config.PrivateZone
        resource_record_set_count := details.HostedZone.ResourceRecordSetCount }
    let r1 :=
      match details.HostedZone.Config.Comment with
      | some c => { base with comment := some c }
      | none => base
    let r2 :=
      match details.DelegationSet with
      | some dset =>
        { r1 with name_servers := some (.pyTuple1 (.pyStrList dset.NameServers)) }
      | none => r1
    if pyTruthyOpt ds_val then
      match details.DelegationSet with
      | none => (.crashKeyError "DelegationSet", calls)
      | some dset =>
        if dset.Id = none ∨ dset.Id ≠ ds_val then
          (.failJson "Cannot change the delegation set for an existing zone", calls)
        else
          let r3 := { r2 with
            delegation_set :=
              some (pyReplace (dset.Id.getD "") "/delegationset/" "") }
          let r4 :=
            match details.VPCs with
            | some vl =>
              { r3 with vpcs := some (vl.map fun v => ⟨v.VPCId, v.VPCRegion⟩) }
            | none => r3
          (.exitJson false (some r4), calls)
    else
      let r4 :=
        match details.VPCs with
        | some vl =>
          { r2 with vpcs := some (vl.map fun v => ⟨v.VPCId, v.VPCRegion⟩) }
        | none => r2
      (.exitJson false (some r4), calls)

/-- Lines 236-261: the `state == 'present'` (zone not found) branch.
The create call is wrapped in `try/except`, so a `ClientError` becomes
`fail_json` with the provider's message; on success the result dict is
built from the create response and returned with `changed=True`. -/
def presentCreate (create : String → CreateRecord → ApiResult CreateResp)
    (zone_in : String) (record : CreateRecord) (calls : List ApiCall) :
    Outcome × List ApiCall :=
  match create zone_in record with
  | .err _ m => (.failJson m, calls ++ [.createHostedZone zone_in record])
  | .ok cresp =>
    let calls := calls ++ [.createHostedZone zone_in record]
    let base : ResultDict :=
      { zone_id := pyReplace cresp.HostedZone.Id "/hostedzone/" ""
        name := cresp.HostedZone.Name
        private_zone := cresp.HostedZone.Config.PrivateZone
        resource_record_set_count := cresp.HostedZone.ResourceRecordSetCount
        location := some cresp.Location }
    let r1 :=
      match cresp.HostedZone.Config.Comment with
      | some c => { base with comment := some c }
      | none => base
    let r2 :=
      match cresp.DelegationSet with
      | some dset =>
        let a := { r1 with
          name_servers := some (.pyTuple1 (.pyStrList dset.NameServers)) }
        match dset.Id with
        | some did =>
          { a with delegation_set := some (pyReplace did "/delegationset/" "") }
        | none => a
      | none => r1
    let r3 :=
      match cresp.VPCs with
      | some vl =>
        { r2 with vpcs := some (vl.map fun v => ⟨v.VPCId, v.VPCRegion⟩) }
      | none => r2
    (.exitJson true (some r3), calls)

/-- The body of `main` (lines 154-268), with the AWS client as an
oracle and the timestamp and random suffix of the caller reference as
explicit inputs.  Returns the terminal outcome together with the
ordered list of provider calls issued before termination. -/
def runMain (p : Params) (r53 : Route53) (iso : String) (rand : Nat) :
    Outcome × List ApiCall :=
  let zone_in := normalizeZone (pyToLower p.zone)
  let state := pyToLower p.state
  let private_zone := p.vpc_id.isSome && p.vpc_region.isSome
  let caller_reference := callerReference iso rand
  match r53.list_hosted_zones with
  | .err c m => (.crashClientError c m, [.listHostedZones])
  | .ok results =>
    match findZone r53.get_hosted_zone zone_in p.vpc_id results.HostedZones with
    | .crash c m fcalls => (.crashClientError c m, .listHostedZones :: fcalls)
    | .done zone_id fcalls =>
      let calls := .listHostedZones :: fcalls
      match delegStage p private_zone r53 with
      | .inl (msg, dcalls) => (.failJson msg, calls ++ dcalls)
      | .inr (ds_val, dcalls) =>
        let calls := calls ++ dcalls
        let record : CreateRecord :=
          { CallerReference := caller_reference
            Comment := if p.comment ≠ "" then some p.comment else none
            VPC :=
              if private_zone then
                some ⟨p.vpc_id.getD "", p.vpc_region.getD ""⟩
              else none
            DelegationSetId := if pyTruthyOpt ds_val then ds_val else none }
        if state = "present" ∧ pyTruthyOpt zone_id then
          presentFound r53.get_hosted_zone (zone_id.getD "") ds_val calls
        else if state = "present" then
          presentCreate r53.create_hosted_zone zone_in record calls
        else if state = "absent" ∧ pyTruthyOpt zone_id then
          match r53.delete_hosted_zone (zone_id.getD "") with
          | .err c m =>
            (.crashClientError c m, calls ++ [.deleteHostedZone (zone_id.getD "")])
          | .ok _ =>
            (.exitJson true none, calls ++ [.deleteHostedZone (zone_id.getD "")])
        else if state = "absent" then (.exitJson false none, calls)
        else (.noExit, calls)

/-- The calls issued by the matching loop, whichever way it ended. -/
def FindRes.calls : FindRes → List ApiCall
  | .crash _ _ cs => cs
  | .done _ cs => cs

/-- Privacy-scope matching as the specification words it: a private
request matches a zone that lists the requested vpcId among its
associated VPCs; a public request matches a zone that has no VPC
associations at all. -/
def privacyScopeSpec (vpc_id : Option String) (zd : ZoneDetails) : Bool :=
  match vpc_id with
  | some v => (zd.VPCs.getD []).any fun e => e.VPCId == v
  | none => zd.VPCs.isNone

/-- Name-and-scope matching of one listed zone, as the specification
words it, with the privacy scope read off the zone's details. -/
def specZoneMatches (get : String → ApiResult ZoneDetails) (zone_in : String)
    (vpc_id : Option String) (z : HZSummary) : Bool :=
  z.Name == zone_in &&
    match get (pyReplace z.Id "/hostedzone/" "") with
    | .ok zd => privacyScopeSpec vpc_id zd
    | .err _ _ => false

/-- For a request whose `vpc_id` is not the degenerate empty string,
the loop's break condition agrees with the specification's
privacy-scope matching. -/
lemma privacyMatch_eq_spec (vpc_id : Option String) (zd : ZoneDetails)
    (hwf : vpc_id ≠ some "") : privacyMatch vpc_id zd = privacyScopeSpec vpc_id zd := by
  cases hv : vpc_id with
  | none =>
    simp [privacyMatch, privacyScopeSpec, pyTruthyOpt]
  | some v =>
    have hv' : v ≠ "" := by
      intro h
      exact hwf (by simp [hv, h])
    cases hz : zd.VPCs with
    | none => simp [privacyMatch, privacyScopeSpec, pyTruthyOpt, hv', hz]
    | some vl => simp [privacyMatch, privacyScopeSpec, pyTruthyOpt, hv', hz]

/-- Every call issued by the matching loop is a `get_hosted_zone`. -/
lemma findZone_calls_are_gets (get : String → ApiResult ZoneDetails)
    (zone_in : String) (vpc_id : Option String) :
    ∀ l : List HZSummary, ∀ c ∈ (findZone get zone_in vpc_id l).calls,
      ∃ id, c = ApiCall.getHostedZone id := by
  intro l
  induction l with
  | nil => simp [findZone, FindRes.calls]
  | cons z rest ih =>
    intro c hc
    by_cases hn : z.Name = zone_in
    · simp only [findZone, hn, if_true] at hc
      cases hg : get (pyReplace z.Id "/hostedzone/" "") with
      | err code msg =>
        simp [hg, FindRes.calls] at hc
        exact ⟨_, hc⟩
      | ok zd =>
        simp only [hg] at hc
        by_cases hp : privacyMatch vpc_id zd
        · simp [hp, FindRes.calls] at hc
          exact ⟨_, hc⟩
        · simp only [hp, if_neg, Bool.false_eq_true, if_false] at hc
          cases hrec : findZone get zone_in vpc_id rest with
          | crash c2 m2 cs =>
            simp [hrec, FindRes.calls] at hc
            rcases hc with hc | hc
            · exact ⟨_, hc⟩
            · exact ih c (by simp [hrec, FindRes.calls, hc])
          | done r cs =>
            simp [hrec, FindRes.calls] at hc
            rcases hc with hc | hc
            · exact ⟨_, hc⟩
            · exact ih c (by simp [hrec, FindRes.calls, hc])
    · simp only [findZone, hn, if_false] at hc
      exact ih c hc

/-- The calls issued by the delegation-set block, whichever way it
ended. -/
def delegCallsOf : (String × List ApiCall) ⊕ (Option String × List ApiCall) → List ApiCall
  | .inl (_, cs) => cs
  | .inr (_, cs) => cs

/-- Every call issued by the delegation-set block resolves a reusable
delegation set. -/
lemma delegStage_calls_are_deleg (p : Params) (private_zone : Bool) (r53 : Route53) :
    ∀ c ∈ delegCallsOf (delegStage p private_zone r53),
      ∃ id, c = ApiCall.getReusableDelegationSet id := by
  intro c hc
  unfold delegStage at hc
  split at hc
  · simp [delegCallsOf] at hc
  · split at hc
    · simp [delegCallsOf] at hc
    · split at hc
      · simp [delegCallsOf] at hc
      · split at hc
        · split at hc <;> (simp [delegCallsOf] at hc; exact ⟨_, hc⟩)
        · simp [delegCallsOf] at hc
          exact ⟨_, hc⟩

/-- The trace of the `present`-and-found branch is the incoming trace
plus exactly the one `get_hosted_zone` call. -/
lemma presentFound_trace (get : String → ApiResult ZoneDetails) (zid : String)
    (ds_val : Option String) (cs : List ApiCall) :
    (presentFound get zid ds_val cs).2 = cs ++ [ApiCall.getHostedZone zid] := by
  unfold presentFound
  cases hg : get zid with
  | err c m => rfl
  | ok details =>
    simp only []
    split <;> (try split) <;> (try split) <;> rfl

/-- The trace of the create branch is the incoming trace plus exactly
the one `create_hosted_zone` call. -/
lemma presentCreate_trace (create : String → CreateRecord → ApiResult CreateResp)
    (zone_in : String) (record : CreateRecord) (cs : List ApiCall) :
    (presentCreate create zone_in record cs).2 =
      cs ++ [ApiCall.createHostedZone zone_in record] := by
  unfold presentCreate
  cases hg : create zone_in record with
  | err c m => rfl
  | ok cresp => rfl

/-- A string extended by a final dot has the one-character suffix `"."`. -/
lemma pyLastSlice_append_dot (z : String) : pyLastSlice (z ++ ".") = "." := by
  show String.mk ((z ++ ".").data.drop ((z ++ ".").data.length - 1)) = "."
  rw [String.data_append]
  simp

/-- C4: zone-name normalization (appending a trailing dot when absent)
is idempotent: `normalizeZone (normalizeZone z) = normalizeZone z` for
every zone-name string `z`. -/
theorem C4_normalizeZone_idempotent (z : String) :
    normalizeZone (normalizeZone z) = normalizeZone z := by
  by_cases h : pyLastSlice z = "."
  · simp [normalizeZone, h]
  · simp [normalizeZone, h, pyLastSlice_append_dot]

/-- The matching loop never issues a listing call. -/
lemma findZone_no_list (get : String → ApiResult ZoneDetails) (zone_in : String)
    (vpc_id : Option String) (l : List HZSummary) :
    ApiCall.listHostedZones ∉ (findZone get zone_in vpc_id l).calls := by
  intro hmem
  obtain ⟨id, hid⟩ := findZone_calls_are_gets get zone_in vpc_id l _ hmem
  exact ApiCall.noConfusion hid

/-- The delegation-set block never issues a listing call. -/
lemma delegStage_no_list (p : Params) (private_zone : Bool) (r53 : Route53) :
    ApiCall.listHostedZones ∉ delegCallsOf (delegStage p private_zone r53) := by
  intro hmem
  obtain ⟨id, hid⟩ := delegStage_calls_are_deleg p private_zone r53 _ hmem
  exact ApiCall.noConfusion hid

/-- Every invocation issues the listing call exactly once: the module
never pages through the hosted-zone listing. -/
lemma runMain_one_list_call (p : Params) (r53 : Route53) (iso : String) (rand : Nat) :
    (runMain p r53 iso rand).2.count ApiCall.listHostedZones = 1 := by
  unfold runMain
  cases hL : r53.list_hosted_zones with
  | err c m => simp
  | ok results =>
    cases hF : findZone r53.get_hosted_zone (normalizeZone (pyToLower p.zone))
        p.vpc_id results.HostedZones with
    | crash c m fcalls =>
      have hf := findZone_no_list r53.get_hosted_zone (normalizeZone (pyToLower p.zone))
        p.vpc_id results.HostedZones
      rw [hF] at hf
      simp only [FindRes.calls] at hf
      simp [hF, List.count_cons, List.count_eq_zero.mpr hf]
    | done zone_id fcalls =>
      have hf := findZone_no_list r53.get_hosted_zone (normalizeZone (pyToLower p.zone))
        p.vpc_id results.HostedZones
      rw [hF] at hf
      simp only [FindRes.calls] at hf
      cases hD : delegStage p (p.vpc_id.isSome && p.vpc_region.isSome) r53 with
      | inl v =>
        obtain ⟨msg, dcalls⟩ := v
        have hd := delegStage_no_list p (p.vpc_id.isSome && p.vpc_region.isSome) r53
        rw [hD] at hd
        simp only [delegCallsOf] at hd
        simp [hF, hD, List.count_cons, List.count_append,
          List.count_eq_zero.mpr hf, List.count_eq_zero.mpr hd]
      | inr v =>
        obtain ⟨ds_val, dcalls⟩ := v
        have hd := delegStage_no_list p (p.vpc_id.isSome && p.vpc_region.isSome) r53
        rw [hD] at hd
        simp only [delegCallsOf] at hd
        have hbase :
            (ApiCall.listHostedZones :: (fcalls ++ dcalls)).count ApiCall.listHostedZones = 1 := by
          simp [List.count_cons, List.count_append,
            List.count_eq_zero.mpr hf, List.count_eq_zero.mpr hd]
        simp only [hF, hD]
        split
        · rw [presentFound_trace]
          simp [List.count_append] at hbase ⊢
          omega
        · split
          · rw [presentCreate_trace]
            simp [List.count_append] at hbase ⊢
            omega
          · split
            · split <;>
                (simp [List.count_append] at hbase ⊢; omega)
            · split
              · exact hbase
              · exact hbase

/-- Concrete fixture: a public hosted zone as listed. -/
def exZoneSummary : HZSummary := ⟨"/hostedzone/Z1", "example.com."⟩

/-- Concrete fixture: the details of the public hosted zone. -/
def exZoneDetails : ZoneDetails :=
  ⟨⟨"/hostedzone/Z1", "example.com.", ⟨false, some "a comment"⟩, 5⟩,
   some ⟨some "/delegationset/N1", ["ns1", "ns2"]⟩, none⟩

/-- Concrete fixture: a details oracle knowing the one public zone. -/
def exGet : String → ApiResult ZoneDetails := fun id =>
  if id = "Z1" then .ok exZoneDetails else .err "NoSuchHostedZone" "zone not found"

/-- Concrete fixture: a provider holding the one public zone on its
first (and only) listing page. -/
def exProvider : Route53 :=
  { firstPage := .ok ⟨[exZoneSummary], false, none⟩
    laterPages := []
    get_hosted_zone := exGet
    get_reusable_delegation_set := fun _ => .err "NoSuchDelegationSet" "no such set"
    create_hosted_zone := fun _ _ => .err "InvalidInput" "create refused"
    delete_hosted_zone := fun _ => .ok () }

/-- Concrete fixture: a provider with an empty listing. -/
def emptyProvider : Route53 :=
  { exProvider with firstPage := .ok ⟨[], false, none⟩ }

/-- Concrete fixture: a provider whose listing is paginated with an
empty, truncated first page and the zone only on the second page. -/
def pagedProvider : Route53 :=
  { exProvider with
    firstPage := .ok ⟨[], true, some "marker"⟩
    laterPages := [⟨[exZoneSummary], false, none⟩] }

/-- Concrete fixture: request the zone absent, public scope. -/
def absentReq : Params := ⟨"example.com", "absent", none, none, "", none⟩

/-- Concrete fixture: request the zone present, public scope. -/
def presentReq : Params := ⟨"example.com", "present", none, none, "", none⟩

/-- C2 counterexample: with the provider listing paginated and the
matching zone only on the second page, the reconciler does not find
the zone — the absent request returns changed=false, although the same
request against the same zone listed on the first page deletes it and
returns changed=true. -/
theorem C2_page_two_zone_not_found :
    (∃ page ∈ pagedProvider.laterPages, ∃ z ∈ page.HostedZones,
        z.Name = normalizeZone (pyToLower absentReq.zone) ∧
        privacyMatch absentReq.vpc_id exZoneDetails = true) ∧
    (runMain absentReq pagedProvider "2016-01-01T00:00:00" 123456).1 =
      Outcome.exitJson false none ∧
    (runMain absentReq exProvider "2016-01-01T00:00:00" 123456).1 =
      Outcome.exitJson true none := by
  decide

/-- C2 amended: the reconciler issues exactly one unpaginated listing
call and matches only against the first page of the listing; its
result and call trace are independent of any later pages, so a zone
appearing only on a page after the first is never found. -/
theorem C2_first_page_only (p : Params) (r53 : Route53) (iso : String) (rand : Nat)
    (lp : List ListResp) :
    runMain p { r53 with laterPages := lp } iso rand = runMain p r53 iso rand ∧
    (runMain p r53 iso rand).2.count ApiCall.listHostedZones = 1 :=
  ⟨rfl, runMain_one_list_call p r53 iso rand⟩

/-- C5: over any list of remote zones, when the details of every
name-matching zone are available, the matching loop yields exactly the
first zone whose name equals the normalized requested name and whose
privacy scope matches as the specification words it (a request with a
vpcId matches only a zone listing that vpcId among its VPCs, a request
without matches only a zone with no VPC associations), and yields
`none` when no zone satisfies both conditions. -/
theorem C5_first_matching_zone (get : String → ApiResult ZoneDetails)
    (zone_in : String) (vpc_id : Option String) (l : List HZSummary)
    (hok : ∀ z ∈ l, (get (pyReplace z.Id "/hostedzone/" "")).isOk)
    (hwf : vpc_id ≠ some "") :
    ∃ cs, findZone get zone_in vpc_id l =
      FindRes.done ((l.find? (specZoneMatches get zone_in vpc_id)).map
        fun z => pyReplace z.Id "/hostedzone/" "") cs := by
  revert hok
  induction l with
  | nil => exact fun _ => ⟨[], by simp [findZone]⟩
  | cons z rest ih =>
    intro hok
    have hokz := hok z (List.mem_cons_self z rest)
    have hokr : ∀ w ∈ rest, (get (pyReplace w.Id "/hostedzone/" "")).isOk :=
      fun w hw => hok w (List.mem_cons_of_mem z hw)
    have hE : ∀ w, privacyMatch vpc_id w = privacyScopeSpec vpc_id w :=
      fun w => privacyMatch_eq_spec vpc_id w hwf
    by_cases hn : z.Name = zone_in
    · cases hg : get (pyReplace z.Id "/hostedzone/" "") with
      | err c m =>
        rw [hg] at hokz
        exact absurd hokz (by simp [ApiResult.isOk])
      | ok zd =>
        by_cases hp : privacyMatch vpc_id zd = true
        · have hspec : specZoneMatches get zone_in vpc_id z = true := by
            simp only [specZoneMatches, hg, ← hE zd]
            simp [hn, hp]
          refine ⟨[ApiCall.getHostedZone (pyReplace z.Id "/hostedzone/" "")], ?_⟩
          rw [List.find?_cons_of_pos _ hspec]
          simp [findZone, hn, hg, hp]
        · have hspec : ¬ specZoneMatches get zone_in vpc_id z = true := by
            simp only [specZoneMatches, hg, ← hE zd]
            simp [hn]
            simpa using hp
          obtain ⟨cs, hcs⟩ := ih hokr
          refine ⟨ApiCall.getHostedZone (pyReplace z.Id "/hostedzone/" "") :: cs, ?_⟩
          rw [List.find?_cons_of_neg _ hspec]
          simp [findZone, hn, hg, hp, hcs]
    · have hspec : ¬ specZoneMatches get zone_in vpc_id z = true := by
        simp [specZoneMatches, hn]
      obtain ⟨cs, hcs⟩ := ih hokr
      refine ⟨cs, ?_⟩
      rw [List.find?_cons_of_neg _ hspec]
      simp [findZone, hn, hcs]

/-- Concrete fixture: listing entry of a public zone named
internal.example.com. -/
def intPubSummary : HZSummary := ⟨"/hostedzone/Z2", "internal.example.com."⟩

/-- Concrete fixture: listing entry of a private zone sharing that
name. -/
def intPrivSummary : HZSummary := ⟨"/hostedzone/Z3", "internal.example.com."⟩

/-- Concrete fixture: details of the public zone (no VPC
associations). -/
def intPubDetails : ZoneDetails :=
  ⟨⟨"/hostedzone/Z2", "internal.example.com.", ⟨false, none⟩, 2⟩,
   some ⟨some "/delegationset/N2", ["ns"]⟩, none⟩

/-- Concrete fixture: details of the private zone, associated with
vpc-123. -/
def intPrivDetails : ZoneDetails :=
  ⟨⟨"/hostedzone/Z3", "internal.example.com.", ⟨true, none⟩, 2⟩,
   none, some [⟨"vpc-123", "us-east-1"⟩]⟩

/-- Concrete fixture: details oracle for the two same-named zones. -/
def twoZoneGet : String → ApiResult ZoneDetails := fun id =>
  if id = "Z2" then .ok intPubDetails
  else if id = "Z3" then .ok intPrivDetails
  else .err "NoSuchHostedZone" "zone not found"

/-- Witness for C5 at the specification's own scenario: two zones
share the name, one public and one private to vpc-123; the request
with that vpcId matches only the private one. -/
theorem C5_first_matching_zone_witness :
    (∀ z ∈ [intPubSummary, intPrivSummary],
        (twoZoneGet (pyReplace z.Id "/hostedzone/" "")).isOk) ∧
    (some "vpc-123" : Option String) ≠ some "" ∧
    (∃ cs, findZone twoZoneGet "internal.example.com." (some "vpc-123")
        [intPubSummary, intPrivSummary] =
      FindRes.done (([intPubSummary, intPrivSummary].find?
          (specZoneMatches twoZoneGet "internal.example.com." (some "vpc-123"))).map
        fun z => pyReplace z.Id "/hostedzone/" "") cs) ∧
    findZone twoZoneGet "internal.example.com." (some "vpc-123")
        [intPubSummary, intPrivSummary] =
      FindRes.done (some "Z3")
        [ApiCall.getHostedZone "Z2", ApiCall.getHostedZone "Z3"] :=
  ⟨by decide, by decide,
    C5_first_matching_zone twoZoneGet "internal.example.com." (some "vpc-123")
      [intPubSummary, intPrivSummary] (by decide) (by decide),
    by decide⟩

/-- Concrete fixture: present request for a private zone together with
a delegation set. -/
def privDelegReq : Params := ⟨"x.com", "present", some "vpc-1", some "r1", "", some "N9"⟩

/-- Concrete fixture: absent request for a private zone together with a
delegation set. -/
def absentPrivDelegReq : Params := ⟨"x.com", "absent", some "vpc-1", some "r1", "", some "N9"⟩

/-- Concrete fixture: absent request with a delegation set the provider
does not know. -/
def absentDelegReq : Params := ⟨"x.com", "absent", none, none, "", some "N9"⟩

/-- C6: a present request with vpcId, vpcRegion and delegationSetId all
set fails with the private-zone validation message, and its trace holds
no delegation-set call and no mutating call. -/
theorem C6_delegation_with_private_zone_fails
    (p : Params) (r53 : Route53) (iso : String) (rand : Nat)
    (resp : ListResp) (zone_id : Option String) (f : List ApiCall)
    (vi vr ds : String)
    (hstate : pyToLower p.state = "present")
    (hvi : p.vpc_id = some vi) (hvr : p.vpc_region = some vr)
    (hds : p.delegation_set = some ds) (hds0 : ds ≠ "")
    (hL : r53.list_hosted_zones = .ok resp)
    (hF : findZone r53.get_hosted_zone (normalizeZone (pyToLower p.zone)) p.vpc_id
        resp.HostedZones = .done zone_id f) :
    (runMain p r53 iso rand).1 =
      Outcome.failJson "Cannot specify delegation_set for private zone" ∧
    ∀ c ∈ (runMain p r53 iso rand).2,
      c.isDelegationSetCall = false ∧ c.isMutating = false := by
  have hD : delegStage p (p.vpc_id.isSome && p.vpc_region.isSome) r53 =
      .inl ("Cannot specify delegation_set for private zone", []) := by
    simp [delegStage, hds, hds0, hvi, hvr]
  have hgets := findZone_calls_are_gets r53.get_hosted_zone
    (normalizeZone (pyToLower p.zone)) p.vpc_id resp.HostedZones
  rw [hF] at hgets
  simp only [FindRes.calls] at hgets
  constructor
  · simp [runMain, hL, hF, hD]
  · intro c hc
    simp only [runMain, hL, hF, hD, List.append_nil] at hc
    rcases List.mem_cons.mp hc with rfl | hcf
    · exact ⟨rfl, rfl⟩
    · obtain ⟨id, rfl⟩ := hgets c hcf
      exact ⟨rfl, rfl⟩

/-- Witness for C6 at a concrete private-zone request carrying a
delegation set. -/
theorem C6_delegation_with_private_zone_fails_witness :
    pyToLower privDelegReq.state = "present" ∧
    (runMain privDelegReq emptyProvider "2016-01-01T00:00:00" 123456).1 =
      Outcome.failJson "Cannot specify delegation_set for private zone" :=
  ⟨by decide,
    (C6_delegation_with_private_zone_fails privDelegReq emptyProvider
      "2016-01-01T00:00:00" 123456 ⟨[], false, none⟩ none [] "vpc-1" "r1" "N9"
      (by decide) rfl rfl rfl (by decide) rfl rfl).1⟩

/-- C10: the delegation-set validation and existence lookup run before
the state branch, so an absent request with a private scope and a
delegation set fails with the validation message, and an absent request
with an unknown delegation set fails with the not-found message; in
both cases no mutating call (in particular no delete) is issued. -/
theorem C10_validation_precedes_delete
    (p q : Params) (r1 r2 : Route53) (iso : String) (rand : Nat)
    (resp1 resp2 : ListResp) (z1 z2 : Option String) (f1 f2 : List ApiCall)
    (vi vr ds dq m : String)
    (hp_state : pyToLower p.state = "absent")
    (hvi : p.vpc_id = some vi) (hvr : p.vpc_region = some vr)
    (hds : p.delegation_set = some ds) (hds0 : ds ≠ "")
    (h1L : r1.list_hosted_zones = .ok resp1)
    (h1F : findZone r1.get_hosted_zone (normalizeZone (pyToLower p.zone)) p.vpc_id
        resp1.HostedZones = .done z1 f1)
    (hq_state : pyToLower q.state = "absent")
    (hqv : q.vpc_id = none)
    (hqds : q.delegation_set = some dq) (hqds0 : dq ≠ "")
    (h2L : r2.list_hosted_zones = .ok resp2)
    (h2F : findZone r2.get_hosted_zone (normalizeZone (pyToLower q.zone)) q.vpc_id
        resp2.HostedZones = .done z2 f2)
    (h2G : r2.get_reusable_delegation_set ("/delegationset/" ++ dq) =
        .err "NoSuchDelegationSet" m) :
    ((runMain p r1 iso rand).1 =
        Outcome.failJson "Cannot specify delegation_set for private zone" ∧
      ∀ c ∈ (runMain p r1 iso rand).2, c.isMutating = false) ∧
    ((runMain q r2 iso rand).1 =
        Outcome.failJson "The specified delegation set was not found" ∧
      ∀ c ∈ (runMain q r2 iso rand).2, c.isMutating = false) := by
  have hD1 : delegStage p (p.vpc_id.isSome && p.vpc_region.isSome) r1 =
      .inl ("Cannot specify delegation_set for private zone", []) := by
    simp [delegStage, hds, hds0, hvi, hvr]
  have hD2 : delegStage q (q.vpc_id.isSome && q.vpc_region.isSome) r2 =
      .inl ("The specified delegation set was not found",
        [.getReusableDelegationSet ("/delegationset/" ++ dq)]) := by
    simp [delegStage, hqds, hqds0, hqv, h2G]
  have hgets1 := findZone_calls_are_gets r1.get_hosted_zone
    (normalizeZone (pyToLower p.zone)) p.vpc_id resp1.HostedZones
  rw [h1F] at hgets1
  simp only [FindRes.calls] at hgets1
  have hgets2 := findZone_calls_are_gets r2.get_hosted_zone
    (normalizeZone (pyToLower q.zone)) q.vpc_id resp2.HostedZones
  rw [h2F] at hgets2
  simp only [FindRes.calls] at hgets2
  refine ⟨⟨by simp [runMain, h1L, h1F, hD1], ?_⟩, ⟨by simp [runMain, h2L, h2F, hD2], ?_⟩⟩
  · intro c hc
    simp only [runMain, h1L, h1F, hD1, List.append_nil] at hc
    rcases List.mem_cons.mp hc with rfl | hcf
    · rfl
    · obtain ⟨id, rfl⟩ := hgets1 c hcf
      rfl
  · intro c hc
    simp only [runMain, h2L, h2F, hD2] at hc
    rcases List.mem_cons.mp hc with rfl | hcf
    · rfl
    · rcases List.mem_append.mp hcf with hcf | hcf
      · obtain ⟨id, rfl⟩ := hgets2 c hcf
        rfl
      · rcases List.mem_singleton.mp hcf with rfl
        rfl

/-- Witness for C10 at concrete absent requests: one private with a
delegation set, one with an unknown delegation set. -/
theorem C10_validation_precedes_delete_witness :
    pyToLower absentPrivDelegReq.state = "absent" ∧
    (runMain absentPrivDelegReq emptyProvider "2016-01-01T00:00:00" 123456).1 =
      Outcome.failJson "Cannot specify delegation_set for private zone" ∧
    (runMain absentDelegReq emptyProvider "2016-01-01T00:00:00" 123456).1 =
      Outcome.failJson "The specified delegation set was not found" := by
  have h := C10_validation_precedes_delete absentPrivDelegReq absentDelegReq
    emptyProvider emptyProvider "2016-01-01T00:00:00" 123456
    ⟨[], false, none⟩ ⟨[], false, none⟩ none none [] []
    "vpc-1" "r1" "N9" "N9" "no such set"
    (by decide) rfl rfl rfl (by decide) rfl rfl
    (by decide) rfl rfl (by decide) rfl rfl rfl
  exact ⟨by decide, h.1.1, h.2.1⟩

/-- The matching loop issues no mutating call. -/
lemma findZone_calls_not_mutating (get : String → ApiResult ZoneDetails)
    (zone_in : String) (vpc_id : Option String) (l : List HZSummary)
    (r : Option String) (f : List ApiCall)
    (hF : findZone get zone_in vpc_id l = .done r f) :
    f.filter (fun c => c.isMutating) = [] := by
  have hg := findZone_calls_are_gets get zone_in vpc_id l
  rw [hF] at hg
  simp only [FindRes.calls] at hg
  refine List.filter_eq_nil_iff.mpr fun c hc => ?_
  obtain ⟨id, rfl⟩ := hg c hc
  simp [ApiCall.isMutating]

/-- The delegation-set block issues no mutating call. -/
lemma delegStage_calls_not_mutating (p : Params) (private_zone : Bool) (r53 : Route53)
    (dv : Option String) (dc : List ApiCall)
    (hD : delegStage p private_zone r53 = .inr (dv, dc)) :
    dc.filter (fun c => c.isMutating) = [] := by
  have hg := delegStage_calls_are_deleg p private_zone r53
  rw [hD] at hg
  simp only [delegCallsOf] at hg
  refine List.filter_eq_nil_iff.mpr fun c hc => ?_
  obtain ⟨id, rfl⟩ := hg c hc
  simp [ApiCall.isMutating]

/-- C8: for an absent request (with the delegation-set stage passing),
a found zone is deleted by its id and the invocation reports
changed=true with no zone payload, while an unmatched zone leads to
changed=false with no mutating call issued at all. -/
theorem C8_absent_reconcile
    (p q : Params) (r1 r2 : Route53) (iso : String) (rand : Nat)
    (resp1 resp2 : ListResp) (zid : String) (f1 f2 : List ApiCall)
    (dv1 dv2 : Option String) (dc1 dc2 : List ApiCall)
    (hp_state : pyToLower p.state = "absent")
    (h1L : r1.list_hosted_zones = .ok resp1)
    (h1F : findZone r1.get_hosted_zone (normalizeZone (pyToLower p.zone)) p.vpc_id
        resp1.HostedZones = .done (some zid) f1)
    (hzid : zid ≠ "")
    (h1D : delegStage p (p.vpc_id.isSome && p.vpc_region.isSome) r1 = .inr (dv1, dc1))
    (h1Del : r1.delete_hosted_zone zid = .ok ())
    (hq_state : pyToLower q.state = "absent")
    (h2L : r2.list_hosted_zones = .ok resp2)
    (h2F : findZone r2.get_hosted_zone (normalizeZone (pyToLower q.zone)) q.vpc_id
        resp2.HostedZones = .done none f2)
    (h2D : delegStage q (q.vpc_id.isSome && q.vpc_region.isSome) r2 = .inr (dv2, dc2)) :
    ((runMain p r1 iso rand).1 = Outcome.exitJson true none ∧
      (runMain p r1 iso rand).2.filter (fun c => c.isMutating) =
        [ApiCall.deleteHostedZone zid]) ∧
    ((runMain q r2 iso rand).1 = Outcome.exitJson false none ∧
      (runMain q r2 iso rand).2.filter (fun c => c.isMutating) = []) := by
  have hne : ¬ (("absent" : String) = "present") := by decide
  have hfil1 := findZone_calls_not_mutating r1.get_hosted_zone _ p.vpc_id _ _ _ h1F
  have hfil2 := findZone_calls_not_mutating r2.get_hosted_zone _ q.vpc_id _ _ _ h2F
  have hfild1 := delegStage_calls_not_mutating p _ r1 dv1 dc1 h1D
  have hfild2 := delegStage_calls_not_mutating q _ r2 dv2 dc2 h2D
  have hrm1 : runMain p r1 iso rand =
      (Outcome.exitJson true none,
        (ApiCall.listHostedZones :: (f1 ++ dc1)) ++ [ApiCall.deleteHostedZone zid]) := by
    simp only [runMain, Route53.list_hosted_zones] at *
    rw [h1L]
    simp only [h1F, h1D, hp_state]
    simp [pyTruthyOpt, hzid, hne, h1Del]
  have hrm2 : runMain q r2 iso rand =
      (Outcome.exitJson false none, ApiCall.listHostedZones :: (f2 ++ dc2)) := by
    simp only [runMain, Route53.list_hosted_zones] at *
    rw [h2L]
    simp only [h2F, h2D, hq_state]
    simp [pyTruthyOpt, hne]
  refine ⟨⟨by rw [hrm1], ?_⟩, ⟨by rw [hrm2], ?_⟩⟩
  · rw [hrm1]
    rw [List.filter_append, List.filter_cons_of_neg (by decide),
      List.filter_append, hfil1, hfild1, List.filter_cons_of_pos (by rfl)]
    simp
  · rw [hrm2]
    rw [List.filter_cons_of_neg (by decide), List.filter_append, hfil2, hfild2]
    simp

/-- Witness for C8: deleting the one existing zone reports
changed=true; the identical request against the provider state left
after that delete (the same provider without the zone) reports
changed=false. -/
theorem C8_absent_reconcile_witness :
    pyToLower absentReq.state = "absent" ∧
    (runMain absentReq exProvider "2016-01-01T00:00:00" 123456).1 =
      Outcome.exitJson true none ∧
    (runMain absentReq emptyProvider "2016-01-01T00:00:00" 123456).1 =
      Outcome.exitJson false none := by
  have h := C8_absent_reconcile absentReq absentReq exProvider emptyProvider
    "2016-01-01T00:00:00" 123456 ⟨[exZoneSummary], false, none⟩ ⟨[], false, none⟩
    "Z1" [ApiCall.getHostedZone "Z1"] [] none none [] []
    (by decide) rfl (by decide) (by decide) rfl rfl
    (by decide) rfl rfl rfl
  exact ⟨by decide, h.1.1, h.2.1⟩

/-- A successful create call exits with changed=true and a result whose
invariant fields are read off the create response; the trace gains
exactly the one create call. -/
lemma presentCreate_ok (create : String → CreateRecord → ApiResult CreateResp)
    (zone_in : String) (record : CreateRecord) (cs : List ApiCall) (cresp : CreateResp)
    (hC : create zone_in record = .ok cresp) :
    ∃ res, presentCreate create zone_in record cs =
        (Outcome.exitJson true (some res), cs ++ [ApiCall.createHostedZone zone_in record]) ∧
      res.zone_id = pyReplace cresp.HostedZone.Id "/hostedzone/" "" ∧
      res.name = cresp.HostedZone.Name ∧
      res.private_zone = cresp.HostedZone.Config.PrivateZone ∧
      res.resource_record_set_count = cresp.HostedZone.ResourceRecordSetCount ∧
      res.comment = cresp.HostedZone.Config.Comment ∧
      res.location = some cresp.Location := by
  obtain ⟨⟨cid, cname, ⟨cpriv, ccom⟩, ccnt⟩, cloc, cds, cvpcs⟩ := cresp
  unfold presentCreate
  rw [hC]
  rcases ccom with _ | cm <;> rcases cvpcs with _ | vl <;>
    rcases cds with _ | ⟨dsid, dsns⟩ <;>
      first
        | exact ⟨_, rfl, rfl, rfl, rfl, rfl, rfl, rfl⟩
        | (rcases dsid with _ | did <;> exact ⟨_, rfl, rfl, rfl, rfl, rfl, rfl, rfl⟩)

/-- A failing create call turns into `fail_json` with the provider's
message; the trace gains exactly the one create call. -/
lemma presentCreate_err (create : String → CreateRecord → ApiResult CreateResp)
    (zone_in : String) (record : CreateRecord) (cs : List ApiCall) (c m : String)
    (hC : create zone_in record = .err c m) :
    presentCreate create zone_in record cs =
      (Outcome.failJson m, cs ++ [ApiCall.createHostedZone zone_in record]) := by
  unfold presentCreate
  rw [hC]

/-- Concrete fixture: present request for a new zone with a comment. -/
def createReq : Params := ⟨"new.example.com.", "present", none, none, "demo", none⟩

/-- Concrete fixture: the provider's create response, echoing the
requested comment as the live service does. -/
def createdResp : CreateResp :=
  ⟨⟨"/hostedzone/Z9", "new.example.com.", ⟨false, some "demo"⟩, 2⟩,
   "https://route53.amazonaws.com/2013-04-01/hostedzone/Z9",
   some ⟨none, ["nsA", "nsB"]⟩, none⟩

/-- Concrete fixture: an empty provider accepting zone creation. -/
def createProvider : Route53 :=
  { emptyProvider with create_hosted_zone := fun _ _ => .ok createdResp }

/-- C9: a present request that matches no zone (with the delegation-set
stage passing, the create call succeeding, and the provider echoing the
requested comment) issues exactly one create call carrying the caller
reference generated for this attempt, and returns changed=true with a
result holding the new zone id, the provider-assigned location, and the
requested comment. -/
theorem C9_create_new_zone
    (p : Params) (r53 : Route53) (iso : String) (rand : Nat)
    (resp : ListResp) (f : List ApiCall) (dv : Option String) (dc : List ApiCall)
    (cresp : CreateResp)
    (hstate : pyToLower p.state = "present")
    (hL : r53.list_hosted_zones = .ok resp)
    (hF : findZone r53.get_hosted_zone (normalizeZone (pyToLower p.zone)) p.vpc_id
        resp.HostedZones = .done none f)
    (hD : delegStage p (p.vpc_id.isSome && p.vpc_region.isSome) r53 = .inr (dv, dc))
    (hC : ∀ n rec, r53.create_hosted_zone n rec = .ok cresp)
    (hEcho : cresp.HostedZone.Config.Comment = some p.comment) :
    ∃ res rec,
      (runMain p r53 iso rand).1 = Outcome.exitJson true (some res) ∧
      (runMain p r53 iso rand).2.filter (fun c => c.isMutating) =
        [ApiCall.createHostedZone (normalizeZone (pyToLower p.zone)) rec] ∧
      rec.CallerReference = callerReference iso rand ∧
      res.zone_id = pyReplace cresp.HostedZone.Id "/hostedzone/" "" ∧
      res.location = some cresp.Location ∧
      res.comment = some p.comment := by
  have hfilf := findZone_calls_not_mutating r53.get_hosted_zone _ p.vpc_id _ _ _ hF
  have hfild := delegStage_calls_not_mutating p _ r53 dv dc hD
  have hstep : runMain p r53 iso rand =
      presentCreate r53.create_hosted_zone (normalizeZone (pyToLower p.zone))
        { CallerReference := callerReference iso rand
          Comment := if p.comment ≠ "" then some p.comment else none
          VPC :=
            if p.vpc_id.isSome && p.vpc_region.isSome then
              some ⟨p.vpc_id.getD "", p.vpc_region.getD ""⟩
            else none
          DelegationSetId := if pyTruthyOpt dv then dv else none }
        (ApiCall.listHostedZones :: (f ++ dc)) := by
    simp only [runMain]
    rw [hL]
    simp only [hF, hD, hstate]
    simp [pyTruthyOpt]
  obtain ⟨res, hpc, hz, hnm, hpz, hrc, hcm, hloc⟩ := presentCreate_ok
    r53.create_hosted_zone (normalizeZone (pyToLower p.zone))
    { CallerReference := callerReference iso rand
      Comment := if p.comment ≠ "" then some p.comment else none
      VPC :=
        if p.vpc_id.isSome && p.vpc_region.isSome then
          some ⟨p.vpc_id.getD "", p.vpc_region.getD ""⟩
        else none
      DelegationSetId := if pyTruthyOpt dv then dv else none }
    (ApiCall.listHostedZones :: (f ++ dc)) cresp (hC _ _)
  refine ⟨res,
    { CallerReference := callerReference iso rand
      Comment := if p.comment ≠ "" then some p.comment else none
      VPC :=
        if p.vpc_id.isSome && p.vpc_region.isSome then
          some ⟨p.vpc_id.getD "", p.vpc_region.getD ""⟩
        else none
      DelegationSetId := if pyTruthyOpt dv then dv else none },
    ?_, ?_, rfl, hz, hloc, by rw [hcm, hEcho]⟩
  · rw [hstep, hpc]
  · rw [hstep, hpc]
    rw [List.filter_append, List.filter_cons_of_neg (by decide),
      List.filter_append, hfilf, hfild, List.filter_cons_of_pos (by rfl)]
    simp

/-- Witness for C9 at the concrete new-zone request. -/
theorem C9_create_new_zone_witness :
    pyToLower createReq.state = "present" ∧
    (∃ res rec,
      (runMain createReq createProvider "2016-01-01T00:00:00" 123456).1 =
        Outcome.exitJson true (some res) ∧
      (runMain createReq createProvider "2016-01-01T00:00:00" 123456).2.filter
          (fun c => c.isMutating) =
        [ApiCall.createHostedZone
          (normalizeZone (pyToLower createReq.zone)) rec] ∧
      rec.CallerReference = callerReference "2016-01-01T00:00:00" 123456 ∧
      res.zone_id = pyReplace createdResp.HostedZone.Id "/hostedzone/" "" ∧
      res.location = some createdResp.Location ∧
      res.comment = some createReq.comment) :=
  ⟨by decide,
    C9_create_new_zone createReq createProvider "2016-01-01T00:00:00" 123456
      ⟨[], false, none⟩ [] none [] createdResp
      (by decide) rfl rfl rfl (fun n rec => rfl) rfl⟩

/-- Concrete fixture: a provider whose delete call fails. -/
def failingDeleteProvider : Route53 :=
  { exProvider with delete_hosted_zone := fun _ => .err "Throttling" "Rate exceeded" }

/-- C3 counterexample: a failing delete call does not surface as a
failure result carrying the provider's message — it propagates as an
uncaught ClientError, because the delete call site has no try/except. -/
theorem C3_delete_failure_crashes :
    (runMain absentReq failingDeleteProvider "2016-01-01T00:00:00" 123456).1 =
      Outcome.crashClientError "Throttling" "Rate exceeded" := by
  decide

/-- C3 amended: a provider-call failure is terminal either way — the
failing call is the last call of the trace and the only mutating one —
but only the create failure surfaces as a failure result carrying the
provider's message unmodified; a delete failure propagates as an
uncaught ClientError. -/
theorem C3_terminal_failures
    (p q : Params) (r1 r2 : Route53) (iso : String) (rand : Nat)
    (resp1 resp2 : ListResp) (f1 f2 : List ApiCall)
    (dv1 dv2 : Option String) (dc1 dc2 : List ApiCall)
    (zid c1 m1 c2 m2 : String)
    (hp_state : pyToLower p.state = "present")
    (h1L : r1.list_hosted_zones = .ok resp1)
    (h1F : findZone r1.get_hosted_zone (normalizeZone (pyToLower p.zone)) p.vpc_id
        resp1.HostedZones = .done none f1)
    (h1D : delegStage p (p.vpc_id.isSome && p.vpc_region.isSome) r1 = .inr (dv1, dc1))
    (h1C : ∀ n rec, r1.create_hosted_zone n rec = .err c1 m1)
    (hq_state : pyToLower q.state = "absent")
    (h2L : r2.list_hosted_zones = .ok resp2)
    (h2F : findZone r2.get_hosted_zone (normalizeZone (pyToLower q.zone)) q.vpc_id
        resp2.HostedZones = .done (some zid) f2)
    (hzid : zid ≠ "")
    (h2D : delegStage q (q.vpc_id.isSome && q.vpc_region.isSome) r2 = .inr (dv2, dc2))
    (h2Del : r2.delete_hosted_zone zid = .err c2 m2) :
    (∃ rec,
      (runMain p r1 iso rand).1 = Outcome.failJson m1 ∧
      (runMain p r1 iso rand).2.getLast? =
        some (ApiCall.createHostedZone (normalizeZone (pyToLower p.zone)) rec) ∧
      (runMain p r1 iso rand).2.filter (fun c => c.isMutating) =
        [ApiCall.createHostedZone (normalizeZone (pyToLower p.zone)) rec]) ∧
    ((runMain q r2 iso rand).1 = Outcome.crashClientError c2 m2 ∧
      (runMain q r2 iso rand).2.getLast? = some (ApiCall.deleteHostedZone zid) ∧
      (runMain q r2 iso rand).2.filter (fun c => c.isMutating) =
        [ApiCall.deleteHostedZone zid]) := by
  have hne : ¬ (("absent" : String) = "present") := by decide
  have hfil1 := findZone_calls_not_mutating r1.get_hosted_zone _ p.vpc_id _ _ _ h1F
  have hfil2 := findZone_calls_not_mutating r2.get_hosted_zone _ q.vpc_id _ _ _ h2F
  have hfild1 := delegStage_calls_not_mutating p _ r1 dv1 dc1 h1D
  have hfild2 := delegStage_calls_not_mutating q _ r2 dv2 dc2 h2D
  have hstep : runMain p r1 iso rand =
      presentCreate r1.create_hosted_zone (normalizeZone (pyToLower p.zone))
        { CallerReference := callerReference iso rand
          Comment := if p.comment ≠ "" then some p.comment else none
          VPC :=
            if p.vpc_id.isSome && p.vpc_region.isSome then
              some ⟨p.vpc_id.getD "", p.vpc_region.getD ""⟩
            else none
          DelegationSetId := if pyTruthyOpt dv1 then dv1 else none }
        (ApiCall.listHostedZones :: (f1 ++ dc1)) := by
    simp only [runMain]
    rw [h1L]
    simp only [h1F, h1D, hp_state]
    simp [pyTruthyOpt]
  have hpc := presentCreate_err r1.create_hosted_zone (normalizeZone (pyToLower p.zone))
    { CallerReference := callerReference iso rand
      Comment := if p.comment ≠ "" then some p.comment else none
      VPC :=
        if p.vpc_id.isSome && p.vpc_region.isSome then
          some ⟨p.vpc_id.getD "", p.vpc_region.getD ""⟩
        else none
      DelegationSetId := if pyTruthyOpt dv1 then dv1 else none }
    (ApiCall.listHostedZones :: (f1 ++ dc1)) c1 m1 (h1C _ _)
  have hrm2 : runMain q r2 iso rand =
      (Outcome.crashClientError c2 m2,
        (ApiCall.listHostedZones :: (f2 ++ dc2)) ++ [ApiCall.deleteHostedZone zid]) := by
    simp only [runMain]
    rw [h2L]
    simp only [h2F, h2D, hq_state]
    simp [pyTruthyOpt, hzid, hne, h2Del]
  refine ⟨⟨{ CallerReference := callerReference iso rand
             Comment := if p.comment ≠ "" then some p.comment else none
             VPC :=
               if p.vpc_id.isSome && p.vpc_region.isSome then
                 some ⟨p.vpc_id.getD "", p.vpc_region.getD ""⟩
               else none
             DelegationSetId := if pyTruthyOpt dv1 then dv1 else none },
      ?_, ?_, ?_⟩, ?_, ?_, ?_⟩
  · rw [hstep, hpc]
  · rw [hstep, hpc]
    exact List.getLast?_concat _
  · rw [hstep, hpc]
    rw [List.filter_append, List.filter_cons_of_neg (by decide),
      List.filter_append, hfil1, hfild1, List.filter_cons_of_pos (by rfl)]
    simp
  · rw [hrm2]
  · rw [hrm2]
    exact List.getLast?_concat _
  · rw [hrm2]
    rw [List.filter_append, List.filter_cons_of_neg (by decide),
      List.filter_append, hfil2, hfild2, List.filter_cons_of_pos (by rfl)]
    simp

/-- Witness for C3 amended at concrete failing providers: the create
failure surfaces as a failure result with the provider's message, the
delete failure as an uncaught ClientError. -/
theorem C3_terminal_failures_witness :
    pyToLower createReq.state = "present" ∧
    (runMain createReq emptyProvider "2016-01-01T00:00:00" 123456).1 =
      Outcome.failJson "create refused" ∧
    (runMain absentReq failingDeleteProvider "2016-01-01T00:00:00" 123456).1 =
      Outcome.crashClientError "Throttling" "Rate exceeded" := by
  have h := C3_terminal_failures createReq absentReq emptyProvider failingDeleteProvider
    "2016-01-01T00:00:00" 123456 ⟨[], false, none⟩ ⟨[exZoneSummary], false, none⟩
    [] [ApiCall.getHostedZone "Z1"] none none [] [] "Z1"
    "InvalidInput" "create refused" "Throttling" "Rate exceeded"
    (by decide) rfl rfl rfl (fun n rec => rfl)
    (by decide) rfl (by decide) (by decide) rfl rfl
  exact ⟨by decide, h.1.choose_spec.1, h.2.1⟩

/-- A found zone whose details carry a delegation-set object with an id
different from the requested (prefixed) one makes the present branch
fail with the cannot-change message. -/
lemma presentFound_mismatch (get : String → ApiResult ZoneDetails) (zid pre : String)
    (cs : List ApiCall) (details : ZoneDetails) (dset : DelegationSetInfo)
    (hG : get zid = .ok details) (hpre : pre ≠ "")
    (hdset : details.DelegationSet = some dset)
    (hmis : dset.Id ≠ some pre) :
    presentFound get zid (some pre) cs =
      (Outcome.failJson "Cannot change the delegation set for an existing zone",
        cs ++ [ApiCall.getHostedZone zid]) := by
  have ht : pyTruthyOpt (some pre) = true := by simp [pyTruthyOpt, hpre]
  have hcond : dset.Id = none ∨ dset.Id ≠ some pre := by
    cases h : dset.Id with
    | none => exact .inl rfl
    | some d => exact .inr (h ▸ hmis)
  unfold presentFound
  rw [hG]
  simp only [ht, if_true, hdset]
  rw [if_pos hcond]

/-- A found zone whose details carry a delegation-set object with
exactly the requested (prefixed) id makes the present branch exit with
changed=false and the normalized view. -/
lemma presentFound_match (get : String → ApiResult ZoneDetails) (zid pre : String)
    (cs : List ApiCall) (details : ZoneDetails) (dset : DelegationSetInfo)
    (hG : get zid = .ok details) (hpre : pre ≠ "")
    (hdset : details.DelegationSet = some dset)
    (hId : dset.Id = some pre) :
    ∃ res, presentFound get zid (some pre) cs =
        (Outcome.exitJson false (some res), cs ++ [ApiCall.getHostedZone zid]) ∧
      res.zone_id = pyReplace details.HostedZone.Id "/hostedzone/" "" ∧
      res.name = details.HostedZone.Name ∧
      res.private_zone = details.HostedZone.Config.PrivateZone ∧
      res.resource_record_set_count = details.HostedZone.ResourceRecordSetCount ∧
      res.delegation_set = some (pyReplace pre "/delegationset/" "") := by
  have ht : pyTruthyOpt (some pre) = true := by simp [pyTruthyOpt, hpre]
  obtain ⟨⟨did, dnm, ⟨dpriv, dcom⟩, dcnt⟩, dsOpt, dvpcs⟩ := details
  simp only at hdset
  subst hdset
  obtain ⟨dsid, dsns⟩ := dset
  simp only at hId
  subst hId
  have hcond : ¬ ((some pre : Option String) = none ∨ (some pre : Option String) ≠ some pre) := by
    simp
  unfold presentFound
  rw [hG]
  simp only [ht, if_true]
  rw [if_neg hcond]
  rcases dcom with _ | cm <;> rcases dvpcs with _ | vl <;>
    exact ⟨_, rfl, rfl, rfl, rfl, rfl, rfl⟩

/-- A found zone with no delegation set requested exits with
changed=false and the normalized view. -/
lemma presentFound_no_ds (get : String → ApiResult ZoneDetails) (zid : String)
    (ds_val : Option String) (cs : List ApiCall) (details : ZoneDetails)
    (hG : get zid = .ok details) (hfalse : pyTruthyOpt ds_val = false) :
    ∃ res, presentFound get zid ds_val cs =
        (Outcome.exitJson false (some res), cs ++ [ApiCall.getHostedZone zid]) ∧
      res.zone_id = pyReplace details.HostedZone.Id "/hostedzone/" "" ∧
      res.name = details.HostedZone.Name ∧
      res.private_zone = details.HostedZone.Config.PrivateZone ∧
      res.resource_record_set_count = details.HostedZone.ResourceRecordSetCount := by
  obtain ⟨⟨did, dnm, ⟨dpriv, dcom⟩, dcnt⟩, dsOpt, dvpcs⟩ := details
  unfold presentFound
  rw [hG]
  simp only [hfalse, Bool.false_eq_true, if_false]
  rcases dcom with _ | cm <;> rcases dvpcs with _ | vl <;> rcases dsOpt with _ | dset <;>
    exact ⟨_, rfl, rfl, rfl, rfl, rfl⟩

/-- Concrete fixture: present request for the existing zone with its
own delegation set id. -/
def presentDSReq : Params := ⟨"example.com", "present", none, none, "", some "N1"⟩

/-- Concrete fixture: provider that knows the requested delegation
set. -/
def matchingDSProvider : Route53 :=
  { exProvider with
    get_reusable_delegation_set := fun _ => .ok ⟨some "/delegationset/N1", ["x"]⟩ }

/-- Concrete fixture: details of the zone with no DelegationSet entry
at all. -/
def noKeyDetails : ZoneDetails := { exZoneDetails with DelegationSet := none }

/-- Concrete fixture: provider whose zone details carry no
DelegationSet entry. -/
def noKeyProvider : Route53 :=
  { matchingDSProvider with
    get_hosted_zone := fun id =>
      if id = "Z1" then .ok noKeyDetails else .err "NoSuchHostedZone" "zone not found" }

/-- C7 counterexample: when the existing zone's details carry no
delegation-set object at all (an id that certainly differs from the
requested one), the invocation does not fail with the validation
message — it crashes with an uncaught KeyError from indexing the
missing key. -/
theorem C7_missing_delegation_key_crashes :
    noKeyDetails.DelegationSet = none ∧
    (runMain presentDSReq noKeyProvider "2016-01-01T00:00:00" 123456).1 =
      Outcome.crashKeyError "DelegationSet" := by
  decide

/-- C7 amended: for a present request matching an existing zone whose
details include a delegation-set object, a requested delegationSetId
leads to the cannot-change failure exactly when that object's id
differs from the requested (prefixed) id; when it matches — and for
such requests without a delegationSetId — the invocation returns
changed=false with the normalized view of the existing zone.  When the
details carry no delegation-set object, the invocation instead crashes
with a KeyError. -/
theorem C7_existing_zone_delegation_set
    (p q : Params) (r1 r2 : Route53) (iso : String) (rand : Nat)
    (resp1 resp2 : ListResp) (zid1 zid2 : String) (f1 f2 : List ApiCall)
    (ds : String) (dsr : DelegationSetInfo) (d1 d2 : ZoneDetails)
    (dset : DelegationSetInfo)
    (hp_state : pyToLower p.state = "present")
    (h1L : r1.list_hosted_zones = .ok resp1)
    (h1F : findZone r1.get_hosted_zone (normalizeZone (pyToLower p.zone)) p.vpc_id
        resp1.HostedZones = .done (some zid1) f1)
    (hz1 : zid1 ≠ "")
    (hds : p.delegation_set = some ds) (hds0 : ds ≠ "")
    (hpriv : (p.vpc_id.isSome && p.vpc_region.isSome) = false)
    (hDS : r1.get_reusable_delegation_set ("/delegationset/" ++ ds) = .ok dsr)
    (h1G : r1.get_hosted_zone zid1 = .ok d1)
    (hdset : d1.DelegationSet = some dset)
    (hq_state : pyToLower q.state = "present")
    (h2L : r2.list_hosted_zones = .ok resp2)
    (h2F : findZone r2.get_hosted_zone (normalizeZone (pyToLower q.zone)) q.vpc_id
        resp2.HostedZones = .done (some zid2) f2)
    (hz2 : zid2 ≠ "")
    (hqds : q.delegation_set = none)
    (h2G : r2.get_hosted_zone zid2 = .ok d2) :
    (((runMain p r1 iso rand).1 =
        Outcome.failJson "Cannot change the delegation set for an existing zone") ↔
      dset.Id ≠ some ("/delegationset/" ++ ds)) ∧
    (dset.Id = some ("/delegationset/" ++ ds) →
      ∃ res, (runMain p r1 iso rand).1 = Outcome.exitJson false (some res) ∧
        res.zone_id = pyReplace d1.HostedZone.Id "/hostedzone/" "" ∧
        res.name = d1.HostedZone.Name ∧
        res.private_zone = d1.HostedZone.Config.PrivateZone ∧
        res.resource_record_set_count = d1.HostedZone.ResourceRecordSetCount ∧
        res.delegation_set =
          some (pyReplace ("/delegationset/" ++ ds) "/delegationset/" "")) ∧
    (∃ res, (runMain q r2 iso rand).1 = Outcome.exitJson false (some res) ∧
      res.zone_id = pyReplace d2.HostedZone.Id "/hostedzone/" "" ∧
      res.name = d2.HostedZone.Name ∧
      res.private_zone = d2.HostedZone.Config.PrivateZone ∧
      res.resource_record_set_count = d2.HostedZone.ResourceRecordSetCount) := by
  have hpre : ("/delegationset/" ++ ds : String) ≠ "" := by
    intro h
    have := congrArg String.data h
    simp [String.data_append] at this
  have hD1 : delegStage p (p.vpc_id.isSome && p.vpc_region.isSome) r1 =
      .inr (some ("/delegationset/" ++ ds),
        [ApiCall.getReusableDelegationSet ("/delegationset/" ++ ds)]) := by
    simp [delegStage, hds, hds0, hpriv, hDS]
  have hD2 : delegStage q (q.vpc_id.isSome && q.vpc_region.isSome) r2 =
      .inr (none, []) := by
    simp [delegStage, hqds]
  have hrm1 : runMain p r1 iso rand =
      presentFound r1.get_hosted_zone zid1 (some ("/delegationset/" ++ ds))
        (ApiCall.listHostedZones ::
          (f1 ++ [ApiCall.getReusableDelegationSet ("/delegationset/" ++ ds)])) := by
    simp only [runMain]
    rw [h1L]
    simp only [h1F, hD1, hp_state]
    simp [pyTruthyOpt, hz1]
  have hrm2 : runMain q r2 iso rand =
      presentFound r2.get_hosted_zone zid2 none
        (ApiCall.listHostedZones :: (f2 ++ [])) := by
    simp only [runMain]
    rw [h2L]
    simp only [h2F, hD2, hq_state]
    simp [pyTruthyOpt, hz2]
  refine ⟨⟨?_, ?_⟩, ?_, ?_⟩
  · intro hfail
    by_contra hcon
    obtain ⟨res, hres, _⟩ := presentFound_match r1.get_hosted_zone zid1
      ("/delegationset/" ++ ds) _ d1 dset h1G hpre hdset hcon
    rw [hrm1, hres] at hfail
    simp at hfail
  · intro hmis
    rw [hrm1, presentFound_mismatch r1.get_hosted_zone zid1 ("/delegationset/" ++ ds)
      _ d1 dset h1G hpre hdset hmis]
  · intro hId
    obtain ⟨res, hres, hrest⟩ := presentFound_match r1.get_hosted_zone zid1
      ("/delegationset/" ++ ds) _ d1 dset h1G hpre hdset hId
    exact ⟨res, by rw [hrm1, hres], hrest⟩
  · obtain ⟨res, hres, hrest⟩ := presentFound_no_ds r2.get_hosted_zone zid2 none _ d2
      h2G rfl
    exact ⟨res, by rw [hrm2, hres], hrest⟩

/-- Witness for C7 amended: the existing zone carries delegation set
N1; requesting N1 returns changed=false with the stripped delegation
set id, and the same request without a delegation set also returns
changed=false. -/
theorem C7_existing_zone_delegation_set_witness :
    ("N1" : String) ≠ "" ∧
    (∃ res, (runMain presentDSReq matchingDSProvider "2016-01-01T00:00:00" 123456).1 =
        Outcome.exitJson false (some res) ∧
      res.zone_id = pyReplace exZoneDetails.HostedZone.Id "/hostedzone/" "" ∧
      res.name = exZoneDetails.HostedZone.Name ∧
      res.private_zone = exZoneDetails.HostedZone.Config.PrivateZone ∧
      res.resource_record_set_count = exZoneDetails.HostedZone.ResourceRecordSetCount ∧
      res.delegation_set =
        some (pyReplace ("/delegationset/" ++ "N1") "/delegationset/" "")) ∧
    (∃ res, (runMain presentReq exProvider "2016-01-01T00:00:00" 123456).1 =
        Outcome.exitJson false (some res) ∧
      res.zone_id = pyReplace exZoneDetails.HostedZone.Id "/hostedzone/" "" ∧
      res.name = exZoneDetails.HostedZone.Name ∧
      res.private_zone = exZoneDetails.HostedZone.Config.PrivateZone ∧
      res.resource_record_set_count = exZoneDetails.HostedZone.ResourceRecordSetCount) := by
  have h := C7_existing_zone_delegation_set presentDSReq presentReq
    matchingDSProvider exProvider "2016-01-01T00:00:00" 123456
    ⟨[exZoneSummary], false, none⟩ ⟨[exZoneSummary], false, none⟩
    "Z1" "Z1" [ApiCall.getHostedZone "Z1"] [ApiCall.getHostedZone "Z1"]
    "N1" ⟨some "/delegationset/N1", ["x"]⟩ exZoneDetails exZoneDetails
    ⟨some "/delegationset/N1", ["ns1", "ns2"]⟩
    (by decide) rfl (by decide) (by decide) rfl (by decide) rfl rfl (by decide) rfl
    (by decide) rfl (by decide) (by decide) rfl (by decide)
  exact ⟨by decide, h.2.1 (by decide), h.2.2⟩

/-- Concrete fixture: the result view of the existing public zone as
the present branch reports it. -/
def foundView : ResultDict :=
  { zone_id := "Z1", name := "example.com.", private_zone := false,
    resource_record_set_count := 5, comment := some "a comment",
    name_servers := some (.pyTuple1 (.pyStrList ["ns1", "ns2"])) }

/-- Concrete fixture: the result view of the freshly created zone as
the create branch reports it. -/
def createdView : ResultDict :=
  { zone_id := "Z9", name := "new.example.com.", private_zone := false,
    resource_record_set_count := 2, comment := some "demo",
    name_servers := some (.pyTuple1 (.pyStrList ["nsA", "nsB"])),
    location := some "https://route53.amazonaws.com/2013-04-01/hostedzone/Z9" }

/-- C1: on both result-producing paths that include name servers (an
existing zone and a freshly created one), the `name_servers` entry of
the returned result is a one-element tuple containing the list of name
servers — the trailing comma of the assignment wraps the list — and
not a list of strings as the module's own RETURN documentation
declares. -/
theorem C1_name_servers_is_tuple_not_list :
    (runMain presentReq exProvider "2016-01-01T00:00:00" 123456).1 =
      Outcome.exitJson false (some foundView) ∧
    foundView.name_servers = some (.pyTuple1 (.pyStrList ["ns1", "ns2"])) ∧
    (PyVal.pyTuple1 (.pyStrList ["ns1", "ns2"])).isStringList = false ∧
    (runMain createReq createProvider "2016-01-01T00:00:00" 123456).1 =
      Outcome.exitJson true (some createdView) ∧
    createdView.name_servers = some (.pyTuple1 (.pyStrList ["nsA", "nsB"])) ∧
    (PyVal.pyTuple1 (.pyStrList ["nsA", "nsB"])).isStringList = false := by
  decide

end Route53Zone
